import Mathlib

/-!
Verification of the vuln-scanner repository (src/scanner.py and
src/parsers/) against its natural-language specification.

Shallow embedding notes.

The repository snapshot contains src/scanner.py and the abstract parser base
class.  The concrete per-format parsers (parsers/requirements.py,
parsers/pom.py), the OSV advisory client (api/osv_client.py) and the report
generator (reporters/report.py) are imported by scanner.py but their code is
not in the snapshot; following the spec they are modelled as oracles:

* `parse` stands for `parser.parse(filepath)` — per the spec a pure function
  from a manifest file to an ordered sequence of dependencies that may fail
  with a parse error (modelled from the spec: "each is a pure function
  parse(file bytes) → ordered sequence of Dependency").
* `query` stands for `OSVClient.check_vulnerability(name, version,
  ecosystem)` — per the spec each call yields one outcome per dependency:
  a list of vulnerability records on success, or a failure.  scanner.py
  installs no exception handler around the call (the only handlers are the
  top-level `except` blocks in `main`, scanner.py lines 221-226, which print
  an error and exit 1), so in this embedding a failing call propagates as an
  `Except.error`, exactly like a raised Python exception.

Python `print` calls are modelled as lists of output lines; an embedded
`print` of a string containing an embedded newline contributes one line per
newline-separated fragment.  The per-dependency progress lines of
`scan_dependencies` ("Scanning: ...", "Found N dependencies",
"Checking i/n: ...") are informational and are not part of any claim; they
are omitted from the modelled output, while every summary, error and report
line is kept verbatim.
-/

/-- A dependency as produced by the parsers: a Python dict with keys
`name`, `version`, `ecosystem` (src/parsers/base.py docstring). -/
structure Dependency where
  name : String
  version : String
  ecosystem : String
deriving DecidableEq, Repr

/-- A vulnerability record as consumed by `display_results`
(src/scanner.py lines 175-178): a Python dict queried with
`vuln.get('id', 'UNKNOWN')` and `vuln.get('severity', 'UNKNOWN')`,
so both keys may be absent — modelled as `Option`. -/
structure Vulnerability where
  id : Option String
  severity : Option String
deriving DecidableEq, Repr

/-- One element of the `results` list built by `scan_dependencies`
(src/scanner.py lines 135-138): the dict
`{'dependency': dep, 'vulnerabilities': vulns}`.  Note the record has no
field for failures: the code keeps no failure information. -/
structure ScanEntry where
  dependency : Dependency
  vulnerabilities : List Vulnerability
deriving DecidableEq, Repr

/-- `Path(filepath).name` of src/scanner.py line 53-56: the final path
component.  Modelled for POSIX paths as the last nonempty `/`-separated
component (Python's `PurePosixPath.name` likewise ignores trailing
slashes; the only divergence is on the special components "." and "..",
where Python returns "" — either way the component differs from both
recognised file names, so `detect_file_type` below behaves identically).
Computed on the character list: strip trailing slashes, then take the
final run of non-slash characters. -/
def pathName (filepath : String) : String :=
  String.mk
    ((((filepath.toList.reverse).dropWhile (fun c => c = '/')).takeWhile
      (fun c => c ≠ '/')).reverse)

deriving instance DecidableEq for Except

/-- `detect_file_type` (src/scanner.py lines 40-62).  Compares the path's
basename for exact equality with 'requirements.txt' / 'pom.xml'; any other
basename raises `ValueError`, modelled as `Except.error`. -/
def detect_file_type (filepath : String) : Except String String :=
  let name := pathName filepath
  if name = "requirements.txt" then Except.ok "requirements"
  else if name = "pom.xml" then Except.ok "pom"
  else Except.error ("Unknown file type: " ++ name)

/-- `getParser` (src/scanner.py lines 64-90): dict lookup from file type to
parser class; an unknown type raises `ValueError`.  The instantiated parser
is represented by its class name. -/
def getParser (file_type : String) : Except String String :=
  if file_type = "requirements" then Except.ok "RequirementsParser"
  else if file_type = "pom" then Except.ok "PomParser"
  else Except.error ("No parser for type: " ++ file_type)

/-- The scanning loop of `scan_dependencies` (src/scanner.py lines 122-140):
for each dependency, in input order, query the OSV client; append
`{'dependency': dep, 'vulnerabilities': vulns}` to the results only when
`vulns` is non-empty (`if vulns:`).  There is no try/except inside the loop,
so a query failure propagates immediately and the remaining dependencies are
never queried. -/
def scanLoop (query : Dependency → Except String (List Vulnerability)) :
    List Dependency → Except String (List ScanEntry)
  | [] => Except.ok []
  | dep :: rest =>
    match query dep with
    | Except.error msg => Except.error msg
    | Except.ok vulns =>
      match scanLoop query rest with
      | Except.error msg => Except.error msg
      | Except.ok tail =>
        if vulns.isEmpty then Except.ok tail
        else Except.ok ({ dependency := dep, vulnerabilities := vulns } :: tail)

/-- `scan_dependencies` (src/scanner.py lines 92-140): detect the file type,
obtain a parser, parse the file, and — when the dependency list is non-empty
— run the scanning loop.  An empty dependency list returns `None`
(`if not dependencies: return None`, lines 112-114); any raised error
propagates to `main`. -/
def scan_dependencies (filepath : String)
    (parse : String → Except String (List Dependency))
    (query : Dependency → Except String (List Vulnerability)) :
    Except String (Option (List ScanEntry)) :=
  match detect_file_type filepath with
  | Except.error msg => Except.error msg
  | Except.ok file_type =>
    match getParser file_type with
    | Except.error msg => Except.error msg
    | Except.ok _parserClass =>
      match parse filepath with
      | Except.error msg => Except.error msg
      | Except.ok dependencies =>
        if dependencies.isEmpty then Except.ok none
        else
          match scanLoop query dependencies with
          | Except.error msg => Except.error msg
          | Except.ok results => Except.ok (some results)

/-- The separator row `"=" * 62` printed by `display_results`. -/
def sepLine : String := String.mk (List.replicate 62 '=')

/-- The line printed for one vulnerability by `display_results`
(src/scanner.py lines 175-178). -/
def vulnLine (v : Vulnerability) : String :=
  "    - " ++ v.id.getD "UNKNOWN" ++ " [" ++ v.severity.getD "UNKNOWN" ++ "]"

/-- The block of lines printed for one vulnerable package by
`display_results` (src/scanner.py lines 170-179): the `name@version:`
header, then one line per vulnerability in the stored list order, then a
blank line.  No sorting of any kind is applied. -/
def depBlock (r : ScanEntry) : List String :=
  ("  " ++ r.dependency.name ++ "@" ++ r.dependency.version ++ ":")
    :: r.vulnerabilities.map vulnLine ++ [""]

/-- `display_results` (src/scanner.py lines 142-181), as the list of printed
lines.  `total_packages` and the "Total packages scanned" / "Vulnerable
packages" lines are both `len(results)` (lines 161, 164-165), where
`results` holds only the vulnerable packages.  There is no section of any
kind for failed queries. -/
def display_results (results : List ScanEntry) : List String :=
  ["", sepLine, "VULNERABILITY SCAN SUMMARY", sepLine, ""] ++
  if results.isEmpty then
    ["✅ No vulnerabilities found!", ""]
  else
    let total_packages := results.length
    let total_vulns := (results.map (fun r => r.vulnerabilities.length)).sum
    ["Total packages scanned: " ++ toString total_packages,
     "Vulnerable packages: " ++ toString total_packages,
     "Total vulnerabilities: " ++ toString total_vulns, "",
     "⚠️  VULNERABILITIES FOUND:", ""] ++
    (results.map depBlock).flatten ++
    [sepLine, ""]

/-- `main` (src/scanner.py lines 183-226) in the default `--format text`
flow, as (output lines, exit code).  A `None` scan result exits 1 (lines
196-197, with the "❌ No dependencies found!" line printed inside
`scan_dependencies`); a completed scan prints `display_results` and exits
`1 if results else 0` (line 219); any raised error is caught by the
top-level `except` blocks (lines 221-226), which print a single error line
and exit 1 — no report is produced. -/
def main_run (filepath : String)
    (parse : String → Except String (List Dependency))
    (query : Dependency → Except String (List Vulnerability)) :
    List String × Nat :=
  match scan_dependencies filepath parse query with
  | Except.error msg => (["❌ Error: " ++ msg], 1)
  | Except.ok none => (["❌ No dependencies found!"], 1)
  | Except.ok (some results) =>
      (display_results results, if results.isEmpty then 0 else 1)

/-- The entries produced by a failure-free scan: the input list, in input
order, restricted to the dependencies whose response is non-empty, each
paired with its response.  Used to characterise `scanLoop`. -/
def successEntries (resp : Dependency → List Vulnerability)
    (deps : List Dependency) : List ScanEntry :=
  (deps.filter (fun d => !(resp d).isEmpty)).map
    (fun d => { dependency := d, vulnerabilities := resp d })

-- Concrete fixtures used by counterexamples and witnesses.

/-- Fixture dependency: requests 2.25.0 (PyPI). -/
def depRequests : Dependency :=
  { name := "requests", version := "2.25.0", ecosystem := "PyPI" }

/-- Fixture dependency: flask 2.0.0 (PyPI). -/
def depFlask : Dependency :=
  { name := "flask", version := "2.0.0", ecosystem := "PyPI" }

/-- Fixture vulnerability with CRITICAL severity. -/
def vulnCrit : Vulnerability := { id := some "CVE-A", severity := some "CRITICAL" }

/-- Fixture vulnerability with HIGH severity. -/
def vulnHigh : Vulnerability := { id := some "CVE-B", severity := some "HIGH" }

/-- Fixture vulnerability with LOW severity. -/
def vulnLow : Vulnerability := { id := some "CVE-C", severity := some "LOW" }

/-- Fixture response table: requests has one CRITICAL record, everything
else has zero records. -/
def respOneVuln : Dependency → List Vulnerability :=
  fun d => if d.name = "requests" then [vulnCrit] else []

/-- Fixture query oracle: every query succeeds, with the `respOneVuln`
records. -/
def queryOneVuln : Dependency → Except String (List Vulnerability) :=
  fun d => Except.ok (respOneVuln d)

/-- Fixture query oracle: the query for requests fails with a network
timeout; every other query succeeds with one CRITICAL record. -/
def queryFailRequests : Dependency → Except String (List Vulnerability) :=
  fun d =>
    if d.name = "requests" then Except.error "Network timeout"
    else Except.ok [vulnCrit]

/-- Fixture parse oracle: every file parses to [requests, flask]. -/
def parseRequestsFlask : String → Except String (List Dependency) :=
  fun _ => Except.ok [depRequests, depFlask]

/-- Fixture entry: requests with records of severities
[LOW, CRITICAL, HIGH] in stored (feed response) order. -/
def entryLCH : ScanEntry :=
  { dependency := depRequests, vulnerabilities := [vulnLow, vulnCrit, vulnHigh] }

-- Helper lemmas shared by the claim theorems.

/-- A failure-free scan loop produces exactly `successEntries`: the input
list in input order, restricted to dependencies with a non-empty response,
each paired with its response. -/
theorem scanLoop_eq_successEntries (resp : Dependency → List Vulnerability)
    (deps : List Dependency) :
    scanLoop (fun d => Except.ok (resp d)) deps =
      Except.ok (successEntries resp deps) := by
  induction deps with
  | nil => rfl
  | cons dep rest ih =>
    simp only [scanLoop, ih, successEntries, List.filter_cons]
    by_cases h : (resp dep).isEmpty
    · simp [h, successEntries]
    · simp [h, successEntries]

/-- Extracting the dependencies of `successEntries` recovers the filtered
input list. -/
theorem successEntries_map_dependency (resp : Dependency → List Vulnerability)
    (deps : List Dependency) :
    (successEntries resp deps).map (fun e => e.dependency) =
      deps.filter (fun d => !(resp d).isEmpty) := by
  unfold successEntries
  rw [List.map_map]
  exact List.map_id _

/-- If every dependency before `d` succeeds and the query for `d` fails,
the scan loop propagates exactly that failure; the dependencies after `d`
contribute nothing (they are never queried). -/
theorem scanLoop_failure_propagates
    (query : Dependency → Except String (List Vulnerability))
    (pre rest : List Dependency) (d : Dependency) (msg : String)
    (hpre : ∀ p ∈ pre, (query p).isOk)
    (hq : query d = Except.error msg) :
    scanLoop query (pre ++ d :: rest) = Except.error msg := by
  induction pre with
  | nil => simp [scanLoop, hq]
  | cons p ps ih =>
    have hp : (query p).isOk := hpre p (by simp)
    have hps : ∀ q ∈ ps, (query q).isOk := fun q hq2 => hpre q (by simp [hq2])
    cases hqp : query p with
    | error m => rw [hqp] at hp; simp [Except.isOk, Except.toBool] at hp
    | ok v =>
      simp [scanLoop, hqp, ih hps]

/-- A successfully detected file type always has a parser: `detect_file_type`
returns only "requirements" or "pom", and `getParser` knows both. -/
theorem detect_ok_parser_ok (filepath : String) (ft : String)
    (h : detect_file_type filepath = Except.ok ft) :
    ∃ p, getParser ft = Except.ok p := by
  unfold detect_file_type at h
  by_cases h1 : pathName filepath = "requirements.txt"
  · simp [h1] at h
    exact ⟨"RequirementsParser", by simp [getParser, ← h]⟩
  · by_cases h2 : pathName filepath = "pom.xml"
    · simp [h1, h2] at h
      exact ⟨"PomParser", by simp [getParser, ← h]⟩
    · simp [h1, h2] at h

-- Claim theorems.

/-- Claim C8 (confirmed): for every input dependency list, the order of the
scan result entries follows the original dependency list's order, not
response arrival order: a failure-free scan loop over any response table
produces exactly the input list, in input order, restricted to the
dependencies with a non-empty response — and since `scanLoop` is a pure
function of the input list and the responses, two runs with identical
inputs and identical responses produce identical entries. -/
theorem c8_entries_follow_input_order (resp : Dependency → List Vulnerability)
    (deps : List Dependency) :
    scanLoop (fun d => Except.ok (resp d)) deps =
      Except.ok (successEntries resp deps) ∧
    (successEntries resp deps).map (fun e => e.dependency) =
      deps.filter (fun d => !(resp d).isEmpty) :=
  ⟨scanLoop_eq_successEntries resp deps, successEntries_map_dependency resp deps⟩

/-- Claim C6 (confirmed): a dependency whose query succeeds with zero
vulnerability records never appears in the entries, and every entry of the
scan result carries at least one vulnerability record. -/
theorem c6_zero_records_never_in_entries
    (query : Dependency → Except String (List Vulnerability))
    (deps : List Dependency) (d : Dependency) (res : List ScanEntry)
    (hq : query d = Except.ok [])
    (hres : scanLoop query deps = Except.ok res) :
    (∀ e ∈ res, e.vulnerabilities ≠ []) ∧
    d ∉ res.map (fun e => e.dependency) := by
  induction deps generalizing res with
  | nil =>
    simp only [scanLoop] at hres
    cases hres
    simp
  | cons dep rest ih =>
    simp only [scanLoop] at hres
    cases hqd : query dep with
    | error m => rw [hqd] at hres; cases hres
    | ok v =>
      rw [hqd] at hres
      cases ht : scanLoop query rest with
      | error m => rw [ht] at hres; cases hres
      | ok tail =>
        rw [ht] at hres
        dsimp only at hres
        obtain ⟨ih1, ih2⟩ := ih tail ht
        by_cases hv : v.isEmpty
        · rw [if_pos hv] at hres
          cases hres
          exact ⟨ih1, ih2⟩
        · rw [if_neg hv] at hres
          cases hres
          refine ⟨?_, ?_⟩
          · intro e he
            rcases List.mem_cons.mp he with h | h
            · subst h
              simpa [List.isEmpty_iff] using hv
            · exact ih1 e h
          · simp only [List.map_cons, List.mem_cons, not_or]
            refine ⟨?_, ih2⟩
            intro hd
            rw [← hd] at hqd
            rw [hq] at hqd
            cases hqd
            simp at hv

/-- Claim C5 (amended, proved): duplicates are not coalesced — every
occurrence of a dependency identity in the input is queried and, when its
response is non-empty, contributes its own entry: the number of entries
whose dependency equals `d` equals the number of occurrences of `d` in the
input list. -/
theorem c5_duplicates_each_counted (resp : Dependency → List Vulnerability)
    (deps : List Dependency) (d : Dependency) (res : List ScanEntry)
    (hv : !(resp d).isEmpty)
    (hres : scanLoop (fun x => Except.ok (resp x)) deps = Except.ok res) :
    (res.map (fun e => e.dependency)).count d = deps.count d := by
  rw [scanLoop_eq_successEntries resp deps] at hres
  cases hres
  rw [successEntries_map_dependency]
  exact List.count_filter hv

/-- Claim C5 (counterexample): the same dependency identity occurring twice
in the input contributes two entries, not one — the second occurrence is
not coalesced into the first. -/
theorem c5_duplicates_counterexample :
    scanLoop queryOneVuln [depRequests, depRequests] =
      Except.ok
        [{ dependency := depRequests, vulnerabilities := [vulnCrit] },
         { dependency := depRequests, vulnerabilities := [vulnCrit] }] ∧
    ([depRequests, depRequests].length = 2) := by decide

/-- Claim C10 (confirmed): file-type detection matches the path's basename
exactly: basename 'requirements.txt' selects the requirements parser,
basename 'pom.xml' the pom parser, and any other basename (for example
'dev-requirements.txt', which merely ends in 'requirements.txt') raises
ValueError, so the whole scan errors out before the parse and query oracles
are ever consulted. -/
theorem c10_detect_exact_basename (filepath : String) :
    (pathName filepath = "requirements.txt" →
      detect_file_type filepath = Except.ok "requirements" ∧
      getParser "requirements" = Except.ok "RequirementsParser") ∧
    (pathName filepath = "pom.xml" →
      detect_file_type filepath = Except.ok "pom" ∧
      getParser "pom" = Except.ok "PomParser") ∧
    (pathName filepath ≠ "requirements.txt" → pathName filepath ≠ "pom.xml" →
      detect_file_type filepath =
        Except.error ("Unknown file type: " ++ pathName filepath) ∧
      ∀ parse query, scan_dependencies filepath parse query =
        Except.error ("Unknown file type: " ++ pathName filepath)) := by
  refine ⟨?_, ?_, ?_⟩
  · intro h1
    constructor
    · simp [detect_file_type, h1]
    · rfl
  · intro h2
    constructor
    · have h1 : pathName filepath ≠ "requirements.txt" := by
        rw [h2]; decide
      simp [detect_file_type, h1, h2]
    · rfl
  · intro h1 h2
    have hdet : detect_file_type filepath =
        Except.error ("Unknown file type: " ++ pathName filepath) := by
      simp [detect_file_type, h1, h2]
    refine ⟨hdet, ?_⟩
    intro parse query
    simp [scan_dependencies, hdet]

/-- Claim C10 witness: a path that merely ends in 'requirements.txt'
('dev-requirements.txt') errors out, while a nested exact basename
('project/sub/requirements.txt') selects the requirements parser. -/
theorem c10_detect_exact_basename_witness :
    detect_file_type "dev-requirements.txt" =
      Except.error ("Unknown file type: " ++ pathName "dev-requirements.txt") ∧
    detect_file_type "project/sub/requirements.txt" =
      Except.ok "requirements" :=
  ⟨((c10_detect_exact_basename "dev-requirements.txt").2.2
      (by decide) (by decide)).1,
   ((c10_detect_exact_basename "project/sub/requirements.txt").1
      (by decide)).1⟩

/-- Claim C6 witness: in the concrete scan of [requests, flask] where only
requests has a record, every entry carries a record and flask (which
succeeded with zero records) is absent from the entries. -/
theorem c6_zero_records_never_in_entries_witness :
    (∀ e ∈ ([{ dependency := depRequests, vulnerabilities := [vulnCrit] }] :
        List ScanEntry), e.vulnerabilities ≠ []) ∧
    depFlask ∉
      (([{ dependency := depRequests, vulnerabilities := [vulnCrit] }] :
        List ScanEntry).map (fun e => e.dependency)) :=
  c6_zero_records_never_in_entries queryOneVuln [depRequests, depFlask]
    depFlask [{ dependency := depRequests, vulnerabilities := [vulnCrit] }]
    (by decide) (by decide)

/-- Claim C5 witness: for the concrete input [requests, requests] with one
record each, the entry count for requests is 2, the occurrence count. -/
theorem c5_duplicates_each_counted_witness :
    ((([{ dependency := depRequests, vulnerabilities := [vulnCrit] },
       { dependency := depRequests, vulnerabilities := [vulnCrit] }] :
        List ScanEntry).map
        (fun e => e.dependency)).count depRequests) =
      [depRequests, depRequests].count depRequests :=
  c5_duplicates_each_counted respOneVuln [depRequests, depRequests]
    depRequests
    [{ dependency := depRequests, vulnerabilities := [vulnCrit] },
     { dependency := depRequests, vulnerabilities := [vulnCrit] }]
    (by decide) (by decide)

/-- Claim C1 (code bug exhibited): scanning [requests, flask] where only
requests is vulnerable yields one entry, and the plain-text report prints
"Total packages scanned: 1" — `total_packages = len(results)` counts only
the vulnerable packages — although 2 dependencies were scanned; the line
"Total packages scanned: 2" required by the claim is absent. -/
theorem c1_scanned_count_divergence :
    scanLoop queryOneVuln [depRequests, depFlask] =
      Except.ok [{ dependency := depRequests, vulnerabilities := [vulnCrit] }] ∧
    "Total packages scanned: 1" ∈
      display_results
        [{ dependency := depRequests, vulnerabilities := [vulnCrit] }] ∧
    "Total packages scanned: 2" ∉
      display_results
        [{ dependency := depRequests, vulnerabilities := [vulnCrit] }] ∧
    [depRequests, depFlask].length = 2 := by decide

/-- Claim C2 (counterexample): the exit status does not distinguish three
outcomes — a scan that cannot complete (unknown file type "deps.cfg") exits
with code 1, the same code as a run that finds vulnerabilities, while a
clean completed run exits 0. -/
theorem c2_exit_code_counterexample :
    (main_run "deps.cfg" parseRequestsFlask queryOneVuln).2 = 1 ∧
    (main_run "requirements.txt" parseRequestsFlask queryOneVuln).2 = 1 ∧
    (main_run "requirements.txt" parseRequestsFlask
      (fun _ => Except.ok [])).2 = 0 := by decide

/-- Claim C2 (amended, proved): the exit status distinguishes only clean
from everything else: the process exits 0 exactly when the scan completes
on a non-empty dependency list with zero vulnerable packages; vulnerable
runs, empty-input runs and runs that cannot complete all exit 1. -/
theorem c2_exit_zero_iff_clean (filepath : String)
    (parse : String → Except String (List Dependency))
    (query : Dependency → Except String (List Vulnerability)) :
    (main_run filepath parse query).2 = 0 ↔
      scan_dependencies filepath parse query = Except.ok (some []) := by
  unfold main_run
  cases h : scan_dependencies filepath parse query with
  | error msg => simp
  | ok o =>
    cases o with
    | none => simp
    | some results =>
      cases results with
      | nil => simp
      | cons a l => simp

/-- Claim C3 (counterexample): a failing advisory query does abort the scan
of the remaining dependencies: with the query for requests failing, the
scan of [requests, flask] propagates the error and flask — which yields a
CRITICAL record whenever it is actually queried, as the second conjunct
shows — resolves to no outcome at all. -/
theorem c3_failure_abort_counterexample :
    scanLoop queryFailRequests [depRequests, depFlask] =
      Except.error "Network timeout" ∧
    scanLoop queryFailRequests [depFlask] =
      Except.ok [{ dependency := depFlask, vulnerabilities := [vulnCrit] }] := by
  decide

/-- Claim C3 (amended, proved): the first failing query's exception
propagates out of the scan loop, aborting the scan: the result is that very
error, and the dependencies after the failing one never influence the
outcome (any two tails give the same result). -/
theorem c3_failure_aborts_remaining
    (query : Dependency → Except String (List Vulnerability))
    (pre : List Dependency) (d : Dependency) (msg : String)
    (hpre : ∀ p ∈ pre, (query p).isOk)
    (hq : query d = Except.error msg) :
    ∀ rest rest2 : List Dependency,
      scanLoop query (pre ++ d :: rest) = Except.error msg ∧
      scanLoop query (pre ++ d :: rest) = scanLoop query (pre ++ d :: rest2) := by
  intro rest rest2
  have h1 := scanLoop_failure_propagates query pre rest d msg hpre hq
  have h2 := scanLoop_failure_propagates query pre rest2 d msg hpre hq
  exact ⟨h1, h1.trans h2.symm⟩

/-- Claim C3 witness: concretely, flask succeeds, then the failing requests
query aborts the scan with its own error. -/
theorem c3_failure_aborts_remaining_witness :
    scanLoop queryFailRequests ([depFlask] ++ depRequests :: [depFlask]) =
      Except.error "Network timeout" :=
  (c3_failure_aborts_remaining queryFailRequests [depFlask] depRequests
    "Network timeout" (by decide) (by decide) [depFlask] []).1

/-- Claim C4 (counterexample): a dependency whose query fails appears in no
failed sequence and in no report section: the run aborts, the entire output
is the single top-level error line, and no report — hence no
partial-failure notice — is produced (the scan result record has no failed
field at all). -/
theorem c4_failed_query_silent_counterexample :
    main_run "requirements.txt" parseRequestsFlask queryFailRequests =
      (["❌ Error: Network timeout"], 1) := by decide

/-- Claim C4 (amended, proved): the code keeps no failed sequence and the
plain-text report has no partial-failure section; instead, a failing query
aborts the whole run: the output is exactly one top-level error line and
the exit code is 1 — no report is rendered and the failed dependency is
listed nowhere. -/
theorem c4_failed_query_no_report
    (parse : String → Except String (List Dependency))
    (query : Dependency → Except String (List Vulnerability))
    (pre rest : List Dependency) (d : Dependency) (msg : String)
    (hparse : parse "requirements.txt" = Except.ok (pre ++ d :: rest))
    (hpre : ∀ p ∈ pre, (query p).isOk)
    (hq : query d = Except.error msg) :
    main_run "requirements.txt" parse query = (["❌ Error: " ++ msg], 1) := by
  have hloop := scanLoop_failure_propagates query pre rest d msg hpre hq
  have hdet : detect_file_type "requirements.txt" = Except.ok "requirements" := by
    decide
  have hne : (pre ++ d :: rest).isEmpty = false := by
    cases pre <;> rfl
  unfold main_run scan_dependencies
  rw [hdet]
  dsimp only
  rw [show getParser "requirements" = Except.ok "RequirementsParser" from
    by decide]
  dsimp only
  rw [hparse]
  simp [hne, hloop]

/-- Claim C4 witness: concretely, with requests failing and flask never
reached, the whole output is the single error line with exit code 1. -/
theorem c4_failed_query_no_report_witness :
    main_run "requirements.txt" parseRequestsFlask queryFailRequests =
      (["❌ Error: " ++ "Network timeout"], 1) :=
  c4_failed_query_no_report parseRequestsFlask queryFailRequests
    [] [depFlask] depRequests "Network timeout" (by decide) (by decide)
    (by decide)

/-- The lines of `display_results` on a non-empty results list, written out:
header block, counts block, one `depBlock` per entry in order, footer. -/
theorem display_results_cons (a : ScanEntry) (l : List ScanEntry) :
    display_results (a :: l) =
      ["", sepLine, "VULNERABILITY SCAN SUMMARY", sepLine, ""] ++
      (["Total packages scanned: " ++ toString (a :: l).length,
        "Vulnerable packages: " ++ toString (a :: l).length,
        "Total vulnerabilities: " ++
          toString (((a :: l).map (fun r => r.vulnerabilities.length)).sum),
        "", "⚠️  VULNERABILITIES FOUND:", ""] ++
        ((a :: l).map depBlock).flatten ++ [sepLine, ""]) := rfl

/-- Claim C7 (counterexample): given records with severities
[LOW, CRITICAL, HIGH] for one dependency, the rendered order is
[LOW, CRITICAL, HIGH] — the LOW line comes first, not the CRITICAL one, so
records are not sorted by severity descending. -/
theorem c7_render_order_counterexample :
    "    - CVE-C [LOW]" ∈ display_results [entryLCH] ∧
    "    - CVE-A [CRITICAL]" ∈ display_results [entryLCH] ∧
    (display_results [entryLCH]).indexOf "    - CVE-C [LOW]" <
      (display_results [entryLCH]).indexOf "    - CVE-A [CRITICAL]" := by
  decide

/-- Claim C7 (amended, proved): within each dependency's vulnerability list
the rendered output preserves the stored (feed response) order and applies
no sorting: for every entry of the results, its vulnerability lines appear
in the rendered report as a sublist in exactly the stored list order. -/
theorem c7_rendered_in_stored_order (results : List ScanEntry) (e : ScanEntry)
    (he : e ∈ results) :
    List.Sublist (e.vulnerabilities.map vulnLine) (display_results results) := by
  cases results with
  | nil => cases he
  | cons a l =>
    rw [display_results_cons]
    have h1 : List.Sublist (e.vulnerabilities.map vulnLine) (depBlock e) := by
      unfold depBlock
      exact (List.sublist_append_left _ _).trans (List.sublist_cons_self _ _)
    have h2 : List.Sublist (depBlock e) (((a :: l).map depBlock).flatten) :=
      List.sublist_flatten_of_mem (List.mem_map_of_mem depBlock he)
    refine ((h1.trans (h2.trans ?_)).trans (List.sublist_append_right _ _))
    exact (List.sublist_append_right _ _).trans (List.sublist_append_left _ _)

/-- Claim C7 witness: the three vulnerability lines of the concrete
[LOW, CRITICAL, HIGH] entry appear in the rendered report in that stored
order. -/
theorem c7_rendered_in_stored_order_witness :
    List.Sublist ([vulnLow, vulnCrit, vulnHigh].map vulnLine)
      (display_results [entryLCH]) :=
  c7_rendered_in_stored_order [entryLCH] entryLCH (by decide)

/-- Claim C9 (counterexample): for an empty dependency input the pipeline
does not produce a scan result with zero counts: `scan_dependencies`
returns `None`, `main` prints "No dependencies found!" and exits 1, and no
"No vulnerabilities found" state is rendered. -/
theorem c9_empty_input_counterexample :
    scan_dependencies "requirements.txt" (fun _ => Except.ok [])
      queryOneVuln = Except.ok none ∧
    main_run "requirements.txt" (fun _ => Except.ok []) queryOneVuln =
      (["❌ No dependencies found!"], 1) ∧
    "✅ No vulnerabilities found!" ∉
      (main_run "requirements.txt" (fun _ => Except.ok []) queryOneVuln).1 := by
  decide

/-- Claim C9 (amended, proved): whenever the file type is recognised and
the file parses to an empty dependency list, `scan_dependencies` produces
no scan result (`None`) and `main` prints the "No dependencies found!"
line and exits 1 — no report of any format is rendered. -/
theorem c9_empty_input_no_result (filepath : String) (ft : String)
    (parse : String → Except String (List Dependency))
    (query : Dependency → Except String (List Vulnerability))
    (hdet : detect_file_type filepath = Except.ok ft)
    (hparse : parse filepath = Except.ok []) :
    scan_dependencies filepath parse query = Except.ok none ∧
    main_run filepath parse query = (["❌ No dependencies found!"], 1) := by
  obtain ⟨p, hp⟩ := detect_ok_parser_ok filepath ft hdet
  have h : scan_dependencies filepath parse query = Except.ok none := by
    unfold scan_dependencies
    rw [hdet]
    dsimp only
    rw [hp]
    dsimp only
    rw [hparse]
    rfl
  refine ⟨h, ?_⟩
  unfold main_run
  rw [h]

/-- Claim C9 witness: the concrete empty-manifest run on pom.xml yields
`None` and the "No dependencies found!" exit. -/
theorem c9_empty_input_no_result_witness :
    scan_dependencies "pom.xml" (fun _ => Except.ok []) queryOneVuln =
      Except.ok none ∧
    main_run "pom.xml" (fun _ => Except.ok []) queryOneVuln =
      (["❌ No dependencies found!"], 1) :=
  c9_empty_input_no_result "pom.xml" "pom" (fun _ => Except.ok [])
    queryOneVuln (by decide) rfl
